import Mathlib

/-!
Verification of the webzfs Secure Remote Execution & Replication
Orchestration subsystem, shallowly embedded from the Python sources
(`services/zfs_replication.py`, `services/storage.py`,
`services/ssh_connection.py`, `services/fleet_monitoring.py`).

Process spawning, the network, the clock and the file contents delivered
by the operating system are supplied as explicit parameters (environment
records); everything the code itself computes is translated directly.
-/

namespace WebZFS

/-! ## Data model: replication enums (services/zfs_replication.py) -/

/-- Enum `ReplicationType`: PUSH = "push", PULL = "pull", LOCAL = "local". -/
inductive ReplicationType
  | PUSH
  | PULL
  | LOCAL
deriving DecidableEq, Repr

/-- The `.value` string of a `ReplicationType` member. -/
def ReplicationType.value : ReplicationType → String
  | .PUSH => "push"
  | .PULL => "pull"
  | .LOCAL => "local"

/-- Enum `CompressionMethod`: NONE, LZ4, GZIP, ZSTD. -/
inductive CompressionMethod
  | NONE
  | LZ4
  | GZIP
  | ZSTD
deriving DecidableEq, Repr

/-! ## Data model: the execution ledger (services/storage.py)

`FileStorageService` keeps `replication_history.json` as
`\x7b "executions": [...], "next_id": int \x7d`.  We model the parsed JSON
data as a structure; `next_id` is an `Option Nat` because the code reads
it with `data.get` (key `next_id`, default 1) and a corrupted store may lack the key. -/

/-- One execution record, with the fields written by
`create_execution_record` / `update_execution_record`. -/
structure Execution where
  id : Nat
  job_id : Option String
  job_name : String
  source_dataset : String
  target_dataset : String
  replication_type : String
  status : String
  started_at : String
  completed_at : Option String
  duration_seconds : Option Nat
  bytes_transferred : Nat
  snapshot_name : Option String
  error_message : Option String
  log_output : Option String
deriving DecidableEq, Repr

/-- The parsed content of `replication_history.json`. -/
structure LedgerData where
  executions : List Execution
  next_id : Option Nat
deriving DecidableEq, Repr

/-- The ledger content `_initialize_files` writes on first start:
`\x7b executions: [], next_id: 1 \x7d`. -/
def freshLedger : LedgerData := { executions := [], next_id := Option.some 1 }

/-- Translation of `FileStorageService.create_execution_record` (storage.py 81-126):
reads the ledger, takes `execution_id` from `data.get` (key `next_id`, default 1), appends a
new record with status `"running"`, sets `next_id := execution_id + 1`,
writes the ledger back, and returns the id.  The wall-clock timestamp is
passed in as `started_at`. -/
def createExecutionRecord (data : LedgerData) (job_id : Option String)
    (job_name source_dataset target_dataset replication_type : String)
    (started_at : String) : LedgerData × Nat :=
  let execution_id := data.next_id.getD 1
  let execution : Execution :=
    { id := execution_id
      job_id := job_id
      job_name := job_name
      source_dataset := source_dataset
      target_dataset := target_dataset
      replication_type := replication_type
      status := "running"
      started_at := started_at
      completed_at := Option.none
      duration_seconds := Option.none
      bytes_transferred := 0
      snapshot_name := Option.none
      error_message := Option.none
      log_output := Option.none }
  ({ executions := data.executions ++ [execution]
     next_id := Option.some (execution_id + 1) }, execution_id)

/-- The loop body of `update_execution_record` (storage.py 143-152): walk
the execution list, overwrite the fields of the FIRST record whose id
matches, then `break`.  No other record is touched. -/
def updateFirst (l : List Execution) (execution_id : Nat) (status : String)
    (completed_at : Option String) (duration_seconds : Option Nat)
    (bytes_transferred : Nat)
    (snapshot_name error_message log_output : Option String) :
    List Execution :=
  match l with
  | [] => []
  | e :: rest =>
    if e.id = execution_id then
      { e with
        status := status
        completed_at := completed_at
        duration_seconds := duration_seconds
        bytes_transferred := bytes_transferred
        snapshot_name := snapshot_name
        error_message := error_message
        log_output := log_output } :: rest
    else
      e :: updateFirst rest execution_id status completed_at duration_seconds
        bytes_transferred snapshot_name error_message log_output

/-- Translation of `FileStorageService.update_execution_record` (storage.py 128-155):
reads the ledger, overwrites the first matching record unconditionally
(there is no check of the current status of the record), and writes back. -/
def updateExecutionRecord (data : LedgerData) (execution_id : Nat)
    (status : String) (completed_at : Option String)
    (duration_seconds : Option Nat) (bytes_transferred : Nat)
    (snapshot_name error_message log_output : Option String) : LedgerData :=
  { data with
    executions := updateFirst data.executions execution_id status
      completed_at duration_seconds bytes_transferred snapshot_name
      error_message log_output }

/-- Status of the first record with a given id, as a reader
(`get_execution_detail`-style first-match lookup) would observe it. -/
def statusOf (data : LedgerData) (execution_id : Nat) : Option String :=
  (data.executions.find? (fun e => e.id = execution_id)).map (·.status)

/-! ## The replication engine (services/zfs_replication.py)

The exit codes and captured standard-error text of the spawned OS
processes are inputs from the environment. -/

/-- Exit codes and stderr produced by one run of the two-process
pipeline: the `zfs send` process and the terminal process (the local
`zfs receive`, or the `ssh` remote session). -/
structure PipelineRun where
  send_rc : Nat
  term_rc : Nat
  term_err : String
deriving DecidableEq, Repr

/-- The dict returned by `_execute_local_replication` /
`_execute_remote_replication` on success. -/
structure PipeResult where
  bytes : Nat
  speed : String
  log_output : String
deriving DecidableEq, Repr

/-- Translation of `_build_send_command` (zfs_replication.py 529-544).  Note that the
`incremental` parameter is accepted but never used: no `-i` base snapshot
is ever appended. -/
def buildSendCommand (dataset snapshot : String) (incremental : Bool)
    (recursive : Bool) (compression : CompressionMethod) : List String :=
  ["zfs", "send"]
    ++ (if recursive then ["-R"] else [])
    ++ (if compression ≠ CompressionMethod.NONE then ["-c", "-w"] else [])
    ++ [snapshot]

/-- Translation of `_build_receive_command` (zfs_replication.py 546-556); `force` is
the `force` entry of `options`. -/
def buildReceiveCommand (target : String)
    (replication_type : ReplicationType) (force : Bool) : List String :=
  ["zfs", "receive"] ++ (if force then ["-F"] else []) ++ [target]

/-- Translation of `_execute_local_replication` (zfs_replication.py 558-583): pipes send
into receive, waits on the receive process only, raises when the RECEIVE
process exits non-zero, and never inspects the exit status of the
send process. -/
def executeLocalReplication (send_cmd receive_cmd : List String)
    (run : PipelineRun) : Except String PipeResult :=
  if run.term_rc ≠ 0 then
    Except.error ("Receive failed: " ++ run.term_err)
  else
    Except.ok { bytes := 0, speed := "N/A", log_output := run.term_err }

/-- Translation of `_execute_remote_replication` (zfs_replication.py 585-626): requires
`remote_host`, pipes send into `ssh ... zfs receive`, waits on the ssh
process only, raises when the SSH session exits non-zero; the send
exit status of the send process is never inspected. -/
def executeRemoteReplication (send_cmd receive_cmd : List String)
    (replication_type : ReplicationType) (remote_host : Option String)
    (run : PipelineRun) : Except String PipeResult :=
  match remote_host with
  | Option.none => Except.error "remote_host required for remote replication"
  | Option.some _ =>
    if run.term_rc ≠ 0 then
      Except.error ("Remote receive failed: " ++ run.term_err)
    else
      Except.ok { bytes := 0, speed := "N/A", log_output := run.term_err }

/-- Environment of one `execute_replication` call: what `zfs list`
reports, what the spawned pipeline does, and the remaining options. -/
structure ReplEnv where
  snapshots : List String
  run : PipelineRun
  remote_host : Option String
  force : Bool
  emailStatus : String
deriving DecidableEq, Repr

/-- The result dict `execute_replication` returns (common fields of the
success dict and the failure dict). -/
structure ExecResult where
  status : String
  source : String
  target : String
  snapshot : Option String
  error : Option String
  execution_id : Nat
deriving DecidableEq, Repr

/-- Everything observable after one `execute_replication` call: the
ledger state, the returned dict, whether a notification send was
attempted (`email.send_job_*_notification` invoked), and the send
command built and handed to `subprocess.Popen` (none when no pipeline
was spawned because no snapshot existed). -/
structure ExecOutcome where
  ledger : LedgerData
  result : ExecResult
  notified : Bool
  send_cmd : Option (List String)
deriving DecidableEq, Repr

/-- Translation of `ZFSReplicationService.execute_replication` (zfs_replication.py
167-338).  The storage and email collaborators are modelled as total
state transformers (their own I/O failures are outside this embedding,
matching the treatment in the spec of them as external collaborators); the
clock is passed in as `start_time` / `end_time` / `duration`. -/
def executeReplication (source target : String)
    (replication_type : ReplicationType) (incremental recursive : Bool)
    (compression : CompressionMethod) (job_id job_name : Option String)
    (env : ReplEnv) (storage : LedgerData)
    (start_time end_time : String) (duration : Nat) : ExecOutcome :=
  let created := createExecutionRecord storage job_id
    (job_name.getD (source ++ " → " ++ target)) source target
    replication_type.value start_time
  let storage1 := created.1
  let execution_id := created.2
  -- the send command built at line 217 whenever a snapshot exists
  let built_send_cmd : Option (List String) :=
    env.snapshots.getLast?.map (fun latest_snapshot =>
      buildSendCommand source latest_snapshot incremental recursive
        compression)
  -- the body of the `try:` block, lines 209-232
  let tryBody : Except String (String × PipeResult) :=
    match env.snapshots.getLast? with
    | Option.none => Except.error ("No snapshots found for " ++ source)
    | Option.some latest_snapshot =>
      let send_cmd := buildSendCommand source latest_snapshot incremental
        recursive compression
      let receive_cmd := buildReceiveCommand target replication_type env.force
      let piped :=
        if replication_type = ReplicationType.LOCAL then
          executeLocalReplication send_cmd receive_cmd env.run
        else
          executeRemoteReplication send_cmd receive_cmd replication_type
            env.remote_host env.run
      piped.map (fun r => (latest_snapshot, r))
  match tryBody with
  | Except.ok (latest_snapshot, r) =>
    -- success path, lines 234-280
    let storage2 := updateExecutionRecord storage1 execution_id "success"
      (Option.some end_time) (Option.some duration) r.bytes
      (Option.some latest_snapshot) Option.none (Option.some r.log_output)
    { ledger := storage2
      result :=
        { status := "success"
          source := source
          target := target
          snapshot := Option.some latest_snapshot
          error := Option.none
          execution_id := execution_id }
      notified := true
      send_cmd := built_send_cmd }
  | Except.error e =>
    -- `except Exception` path, lines 282-338
    let storage2 := updateExecutionRecord storage1 execution_id "failure"
      (Option.some end_time) (Option.some duration) 0 Option.none
      (Option.some e) (Option.some e)
    { ledger := storage2
      result :=
        { status := "failure"
          source := source
          target := target
          snapshot := Option.none
          error := Option.some e
          execution_id := execution_id }
      notified := true
      send_cmd := built_send_cmd }

/-! ## Connection registry (services/ssh_connection.py) -/

/-- A stored SSH connection, restricted to the fields the verified
operations read or write. -/
structure Conn where
  id : String
  used_by : List String
  last_used : Option String
deriving DecidableEq, Repr

/-- What a read of the connections file can encounter
(`_load_connections`, ssh_connection.py 588-604). -/
inductive ConnReadOutcome
  | missing
  | blank
  | malformed (detail : String)
  | loaded (connections : List Conn)
deriving DecidableEq, Repr

/-- Translation of `_load_connections`: a missing file, a blank file and a
`json.JSONDecodeError` / `IOError` all yield `\x7b"connections": []\x7d`;
the decode failure is logged and swallowed, never re-raised. -/
def loadConnections : ConnReadOutcome → List Conn
  | ConnReadOutcome.missing => []
  | ConnReadOutcome.blank => []
  | ConnReadOutcome.malformed _ => []
  | ConnReadOutcome.loaded connections => connections

/-- What a read of the execution ledger file can encounter
(`_read_json`, storage.py 57-63). -/
inductive LedgerReadOutcome
  | missing
  | malformed (detail : String)
  | loaded (data : LedgerData)
deriving DecidableEq, Repr

/-- Translation of `_read_json`: `FileNotFoundError` and `json.JSONDecodeError` are both
caught and turned into the empty dict `\x7b\x7d` (no `executions` key, no
`next_id` key); nothing is re-raised. -/
def readJson : LedgerReadOutcome → LedgerData
  | LedgerReadOutcome.missing => { executions := [], next_id := Option.none }
  | LedgerReadOutcome.malformed _ =>
    { executions := [], next_id := Option.none }
  | LedgerReadOutcome.loaded data => data

/-- First-match lookup of `get_connection` (ssh_connection.py 51-66). -/
def lookupConn (connections : List Conn) (connection_id : String) :
    Option Conn :=
  connections.find? (fun c => c.id = connection_id)

/-- Replace the first connection with the given id (the in-place dict
mutation performed through the alias `get_connection` returns). -/
def setFirstConn (connections : List Conn) (connection_id : String)
    (f : Conn → Conn) : List Conn :=
  match connections with
  | [] => []
  | c :: rest =>
    if c.id = connection_id then f c :: rest
    else c :: setFirstConn rest connection_id f

/-- Translation of `mark_connection_used` (ssh_connection.py 302-316): look the
connection up; if it exists and the feature tag is not yet in `used_by`,
append the tag, stamp `last_used`, and call `_save_connections`.
Otherwise do nothing.  The returned `Bool` records whether
`_save_connections` was called (a write occurred). -/
def markConnectionUsed (connections : List Conn)
    (connection_id feature now : String) : List Conn × Bool :=
  match lookupConn connections connection_id with
  | Option.none => (connections, false)
  | Option.some conn =>
    if feature ∈ conn.used_by then (connections, false)
    else
      (setFirstConn connections connection_id (fun c =>
        { c with
          used_by := c.used_by ++ [feature]
          last_used := Option.some now }), true)

/-! ## Private-key loading (fleet_monitoring.py, ssh_connection.py) -/

/-- The four paramiko key classes the code can try. -/
inductive KeyFormat
  | ed25519
  | rsa
  | ecdsa
  | dsa
deriving DecidableEq, Repr

/-- A private-key file, abstracted to which formats successfully parse it
(`paramiko.XKey.from_private_key_file` succeeds vs raises). -/
structure KeyFile where
  parses : KeyFormat → Bool

/-- The nested try/except ladder in `FleetMonitoringService
._create_ssh_client` (fleet_monitoring.py 449-459): Ed25519 first, then
RSA, then ECDSA, then DSS; the first class that parses wins; when all
four raise, the innermost (DSS) exception escapes the ladder. -/
def fleetLoadPrivateKey (k : KeyFile) : Except String KeyFormat :=
  if k.parses KeyFormat.ed25519 then Except.ok KeyFormat.ed25519
  else if k.parses KeyFormat.rsa then Except.ok KeyFormat.rsa
  else if k.parses KeyFormat.ecdsa then Except.ok KeyFormat.ecdsa
  else if k.parses KeyFormat.dsa then Except.ok KeyFormat.dsa
  else Except.error "DSSKey.from_private_key_file failed"

/-- Translation of `SSHConnectionService._test_key_auth` (ssh_connection.py 512-553):
loads the key with `paramiko.Ed25519Key.from_private_key_file` ONLY (no
fallback to any other format), connects, runs `echo "test"`, and returns
whether the output round-trips; every exception is caught and turned
into `False`. -/
def testKeyAuth (k : KeyFile) (connectOk : Bool) (echoOut : String) :
    Bool :=
  if k.parses KeyFormat.ed25519 then
    if connectOk then decide (echoOut = "test") else false
  else
    false

/-! ## Durable-store write procedures as file-system op traces

To compare the two persistence routines against the atomic-replace
discipline the spec describes, each routine is translated into the exact
sequence of file-system effects it performs. -/

/-- One file-system effect. -/
inductive FsOp
  | openTrunc (path : String)
  | writeAll (path : String) (data : String)
  | flush (path : String)
  | fsync (path : String)
  | chmod600 (path : String)
  | rename (src dst : String)
deriving DecidableEq, Repr

/-- Translation of `pathlib.Path.with_suffix`: replace the final extension (the part
after the last dot) with the given suffix; a name without a dot gets the
suffix appended. -/
def withSuffix (p suffix : String) : String :=
  let parts := p.splitOn "."
  if parts.length ≤ 1 then p ++ suffix
  else String.intercalate "." parts.dropLast ++ suffix

/-- Translation of `FileStorageService._write_json` (storage.py 65-70): open the `.tmp`
sibling for writing (truncating), `json.dump` the whole payload, close,
then `Path.replace` (rename) it over the target.  There is NO `flush`,
NO `fsync` and NO `chmod` anywhere in the routine. -/
def writeJsonOps (file_path data : String) : List FsOp :=
  let temp_file := withSuffix file_path ".tmp"
  [FsOp.openTrunc temp_file,
   FsOp.writeAll temp_file data,
   FsOp.rename temp_file file_path]

/-- Translation of `SSHConnectionService._save_connections` (ssh_connection.py
606-621): open the TARGET file itself for writing (truncating it in
place), `json.dump`, `flush`, `os.fsync`, close, then chmod the file to
0600.  There is NO temporary file and NO rename anywhere in the
routine. -/
def saveConnectionsOps (connections_file data : String) : List FsOp :=
  [FsOp.openTrunc connections_file,
   FsOp.writeAll connections_file data,
   FsOp.flush connections_file,
   FsOp.fsync connections_file,
   FsOp.chmod600 connections_file]

/-- Modelled from the words of the spec (for comparison with the code, not
taken from it): a write is a full-file atomic durable replace of
`target` when the payload goes to a distinct temporary path, the target
itself is never opened for writing, and an `fsync` of the temporary path
happens strictly before the rename over the target. -/
def isAtomicDurableReplace (ops : List FsOp) (target tmp : String) : Prop :=
  tmp ≠ target ∧
  (∀ p, FsOp.openTrunc p ∈ ops → p = tmp) ∧
  (∀ p d, FsOp.writeAll p d ∈ ops → p = tmp) ∧
  FsOp.rename tmp target ∈ ops ∧
  (∃ i j, i < j ∧ ops.get? i = Option.some (FsOp.fsync tmp) ∧
    ops.get? j = Option.some (FsOp.rename tmp target))

/-! ## The provisioning workflow `create_connection`
(ssh_connection.py 68-165)

The remote side (key distribution, key-auth verification) is abstracted
to boolean outcomes; the final `_save_connections` call is an in-place
write, so its failure point determines what the backing file holds
afterwards. -/

/-- The steps of `_save_connections`, in program order. -/
inductive SaveStep
  | stepOpen
  | stepWrite
  | stepFlush
  | stepFsync
  | stepChmod
deriving DecidableEq, Repr

/-- Outcome of one `_save_connections` call: success, or an
`IOError`/`OSError` raised at one of its steps. -/
inductive SaveOutcome
  | saveOk
  | failAt (s : SaveStep)
deriving DecidableEq, Repr

/-- The bytes sitting in the connections backing file, as far as a later
`_load_connections` can tell: a parseable connection list, or content
that no longer parses as JSON. -/
inductive StoreContent
  | valid (connections : List Conn)
  | corrupt
deriving DecidableEq, Repr

/-- What `_load_connections` returns for a given backing-file content
(corrupt JSON is swallowed into the empty list, see `loadConnections`). -/
def visibleConnections : StoreContent → List Conn
  | StoreContent.valid connections => connections
  | StoreContent.corrupt => []

/-- Effect of one `_save_connections` call on the backing file.  The
routine truncates and rewrites the target in place, so: failing to open
leaves the old content; failing during `json.dump` leaves a truncated /
partially-written (unparseable) file; failing at `flush` leaves the
buffered payload unwritten (unparseable or empty file); failing at
`fsync` or at the post-write `chmod` happens after the payload reached
the file, so the new content is already in place. -/
def storeAfterSave (old : StoreContent) (newConnections : List Conn) :
    SaveOutcome → StoreContent
  | SaveOutcome.saveOk => StoreContent.valid newConnections
  | SaveOutcome.failAt SaveStep.stepOpen => old
  | SaveOutcome.failAt SaveStep.stepWrite => StoreContent.corrupt
  | SaveOutcome.failAt SaveStep.stepFlush => StoreContent.corrupt
  | SaveOutcome.failAt SaveStep.stepFsync => StoreContent.valid newConnections
  | SaveOutcome.failAt SaveStep.stepChmod => StoreContent.valid newConnections

/-- Observable outcome of one `create_connection` run. -/
structure ProvisionOutcome where
  store : StoreContent
  keyFilesPresent : Bool
  result : Except String String
deriving Repr

/-- Translation of `SSHConnectionService.create_connection` (ssh_connection.py
103-165): generate a key pair, copy the public key to the remote host,
verify key-only authentication, append the new connection to the
reloaded list and `_save_connections`.  Any exception reaches the
`except` block, which unlinks both generated key files (when they were
created) before re-raising.  `keygenOk`, `copyOk`, `authOk` are the
outcomes of the three remote/tool interactions; `save` is the outcome of
the persistence step. -/
def createConnection (old : StoreContent)
    (keygenOk copyOk authOk : Bool) (save : SaveOutcome)
    (connection_id : String) : ProvisionOutcome :=
  let connections := visibleConnections old
  if ¬ keygenOk then
    -- ssh-keygen failed: no key files were produced, nothing to delete
    { store := old
      keyFilesPresent := false
      result := Except.error
        "Failed to create SSH connection: Failed to generate SSH key" }
  else if ¬ copyOk then
    -- key files deleted by the except block, store untouched
    { store := old
      keyFilesPresent := false
      result := Except.error
        "Failed to create SSH connection: Failed to copy SSH key to remote server. Check credentials and network connectivity." }
  else if ¬ authOk then
    { store := old
      keyFilesPresent := false
      result := Except.error
        "Failed to create SSH connection: SSH key authentication test failed. Key may not have been installed correctly." }
  else
    let newConn : Conn :=
      { id := connection_id, used_by := [], last_used := Option.none }
    let store1 := storeAfterSave old (connections ++ [newConn]) save
    match save with
    | SaveOutcome.saveOk =>
      { store := store1
        keyFilesPresent := true
        result := Except.ok connection_id }
    | SaveOutcome.failAt _ =>
      -- _save_connections re-raised; the except block deletes both key
      -- files and wraps the error
      { store := store1
        keyFilesPresent := false
        result := Except.error
          "Failed to create SSH connection: Failed to save connections" }

/-! ## Sequential execution-record creation (for the id-assignment
invariant) -/

/-- Create `n` execution records back to back on one ledger, as a loop
of `create_execution_record` calls would (the non-id fields do not
influence id assignment). -/
def createN : Nat → LedgerData → LedgerData
  | 0, data => data
  | n + 1, data =>
    createN n (createExecutionRecord data Option.none "job" "src" "tgt"
      "local" "t").1

/-! ## Helper lemmas -/

/-- After `updateFirst`, the first record with the target id carries
exactly the updated fields (first-match update and first-match lookup
walk the list in the same order). -/
lemma find?_updateFirst (l : List Execution) (i : Nat) (st : String)
    (ca : Option String) (ds : Option Nat) (bt : Nat)
    (sn em lo : Option String) (e : Execution)
    (h : l.find? (fun x => x.id = i) = Option.some e) :
    (updateFirst l i st ca ds bt sn em lo).find? (fun x => x.id = i) =
      Option.some { e with
        status := st
        completed_at := ca
        duration_seconds := ds
        bytes_transferred := bt
        snapshot_name := sn
        error_message := em
        log_output := lo } := by
  induction l with
  | nil => simp at h
  | cons a rest ih =>
    by_cases ha : a.id = i
    · have he : a = e := by simpa [List.find?_cons, ha] using h
      subst he
      simp [updateFirst, ha, List.find?_cons]
    · have h2 : rest.find? (fun x => x.id = i) = Option.some e := by
        simpa [List.find?_cons, ha] using h
      simp [updateFirst, ha, List.find?_cons, ih h2]

/-- Looking up an id that no element of `l` carries finds the appended
record. -/
lemma find?_append_fresh (l : List Execution) (e : Execution) (i : Nat)
    (h : ∀ x ∈ l, x.id ≠ i) (he : e.id = i) :
    (l ++ [e]).find? (fun x => x.id = i) = Option.some e := by
  rw [List.find?_append]
  have hnone : l.find? (fun x => x.id = i) = Option.none :=
    List.find?_eq_none.mpr (by simpa using h)
  simp [hnone, List.find?_cons, he]

/-- Translation of `update_execution_record` sets the status of the first matching
record to the status argument, whenever a matching record exists. -/
lemma statusOf_update (d : LedgerData) (i : Nat) (st : String)
    (ca : Option String) (ds : Option Nat) (bt : Nat)
    (sn em lo : Option String) (e : Execution)
    (hf : d.executions.find? (fun x => x.id = i) = Option.some e) :
    statusOf (updateExecutionRecord d i st ca ds bt sn em lo) i =
      Option.some st := by
  unfold statusOf updateExecutionRecord
  rw [find?_updateFirst d.executions i st ca ds bt sn em lo e hf]
  rfl

/-- The record freshly appended by `create_execution_record` is the one
later found and finalized by `update_execution_record`, for any ledger
whose existing ids are all below the counter. -/
lemma statusOf_finalize (storage : LedgerData)
    (hwf : ∀ e ∈ storage.executions, e.id < storage.next_id.getD 1)
    (job_id : Option String) (jn src tgt rtv t0 st : String)
    (ca : Option String) (ds : Option Nat) (bt : Nat)
    (sn em lo : Option String) :
    statusOf (updateExecutionRecord
        (createExecutionRecord storage job_id jn src tgt rtv t0).1
        (createExecutionRecord storage job_id jn src tgt rtv t0).2
        st ca ds bt sn em lo)
      (createExecutionRecord storage job_id jn src tgt rtv t0).2 =
      Option.some st := by
  have hfind :
      ((createExecutionRecord storage job_id jn src tgt rtv t0).1.executions).find?
        (fun x =>
          x.id = (createExecutionRecord storage job_id jn src tgt rtv t0).2) =
      Option.some
        { id := storage.next_id.getD 1
          job_id := job_id
          job_name := jn
          source_dataset := src
          target_dataset := tgt
          replication_type := rtv
          status := "running"
          started_at := t0
          completed_at := Option.none
          duration_seconds := Option.none
          bytes_transferred := 0
          snapshot_name := Option.none
          error_message := Option.none
          log_output := Option.none } := by
    simp only [createExecutionRecord]
    exact find?_append_fresh storage.executions _ _
      (fun x hx => Nat.ne_of_lt (hwf x hx)) rfl
  exact statusOf_update _ _ st ca ds bt sn em lo _ hfind

/-- Ids and counter after `n` sequential `create_execution_record`
calls, for any starting ledger whose counter is present. -/
lemma createN_spec (n : Nat) :
    ∀ (k : Nat) (data : LedgerData), data.next_id = Option.some k →
    (createN n data).executions.map (·.id) =
      data.executions.map (·.id) ++ List.range' k n ∧
    (createN n data).next_id = Option.some (k + n) := by
  induction n with
  | zero => intro k data h; simp [createN, h]
  | succ n ih =>
    intro k data h
    have hstep :
        (createExecutionRecord data Option.none "job" "src" "tgt" "local"
          "t").1.next_id = Option.some (k + 1) := by
      simp [createExecutionRecord, h]
    obtain ⟨h1, h2⟩ := ih (k + 1)
      (createExecutionRecord data Option.none "job" "src" "tgt" "local"
        "t").1 hstep
    refine ⟨?_, ?_⟩
    · rw [createN, h1]
      simp [createExecutionRecord, h, List.range'_succ]
    · rw [createN, h2]; congr 1; omega

/-- Looking up the first match after replacing the first match sees the
replacement, whenever the replacement keeps the id. -/
lemma lookupConn_setFirstConn (l : List Conn) (cid : String)
    (g : Conn → Conn) (c : Conn) (hg : ∀ x, (g x).id = x.id)
    (h : lookupConn l cid = Option.some c) :
    lookupConn (setFirstConn l cid g) cid = Option.some (g c) := by
  induction l with
  | nil => simp [lookupConn] at h
  | cons a rest ih =>
    by_cases ha : a.id = cid
    · have he : a = c := by simpa [lookupConn, List.find?_cons, ha] using h
      subst he
      simp [lookupConn, setFirstConn, ha, List.find?_cons, hg a]
    · have h2 : lookupConn rest cid = Option.some c := by
        simpa [lookupConn, List.find?_cons, ha] using h
      have := ih h2
      simp only [lookupConn, setFirstConn, ha, if_false] at this ⊢
      simpa [List.find?_cons, ha] using this

/-! ## Claim theorems -/

/-- C9: within one ledger instance, `create_execution_record` assigns
unique, strictly increasing ids: creating `n` executions on a fresh
ledger yields ids `1..n` with no gaps or repeats. -/
theorem execution_ids_sequential (n : Nat) :
    (createN n freshLedger).executions.map (·.id) = List.range' 1 n ∧
    ((createN n freshLedger).executions.map (·.id)).Nodup ∧
    List.Pairwise (· < ·) ((createN n freshLedger).executions.map (·.id)) := by
  have h := (createN_spec n 1 freshLedger rfl).1
  have heq : (createN n freshLedger).executions.map (·.id) =
      List.range' 1 n := by simpa [freshLedger] using h
  refine ⟨heq, ?_, ?_⟩ <;> rw [heq]
  · exact List.nodup_range' 1 n
  · exact List.pairwise_lt_range' 1 n

/-- A ledger holding one already-terminal execution (status "success"). -/
def execDone : Execution :=
  { id := 1
    job_id := Option.none
    job_name := "j"
    source_dataset := "s"
    target_dataset := "t"
    replication_type := "local"
    status := "success"
    started_at := "t0"
    completed_at := Option.some "t1"
    duration_seconds := Option.some 3
    bytes_transferred := 7
    snapshot_name := Option.some "s@1"
    error_message := Option.none
    log_output := Option.some "ok" }

/-- See `execDone`. -/
def ledgerTerminal : LedgerData :=
  { executions := [execDone], next_id := Option.some 2 }

/-- C2 counterexample: `update_execution_record` called on an Execution
that is already terminal (`success`) is neither rejected nor a no-op —
the record is overwritten (here to `failure`), so the claimed invariant
fails on the code. -/
theorem update_after_terminal_mutates :
    statusOf (updateExecutionRecord ledgerTerminal 1 "failure"
      (Option.some "t2") (Option.some 9) 0 Option.none
      (Option.some "boom") (Option.some "boom")) 1 =
      Option.some "failure" ∧
    updateExecutionRecord ledgerTerminal 1 "failure" (Option.some "t2")
      (Option.some 9) 0 Option.none (Option.some "boom")
      (Option.some "boom") ≠ ledgerTerminal := by
  refine ⟨rfl, ?_⟩; decide

/-- C2 (amended): `update_execution_record` overwrites the first record
with the matching id unconditionally — whatever status the record
currently has (including the terminal ones), after the call its status
is the status argument. -/
theorem update_execution_record_unconditional (d : LedgerData) (i : Nat)
    (st : String) (ca : Option String) (ds : Option Nat) (bt : Nat)
    (sn em lo : Option String) (s0 : String)
    (h : statusOf d i = Option.some s0) :
    statusOf (updateExecutionRecord d i st ca ds bt sn em lo) i =
      Option.some st := by
  unfold statusOf at h
  cases hf : d.executions.find? (fun x => x.id = i) with
  | none => rw [hf] at h; simp at h
  | some e => exact statusOf_update d i st ca ds bt sn em lo e hf

/-- Witness for the amended C2 theorem at a concrete terminal record. -/
theorem update_execution_record_unconditional_witness :
    statusOf ledgerTerminal 1 = Option.some "success" ∧
    statusOf (updateExecutionRecord ledgerTerminal 1 "failure"
      (Option.some "t2") (Option.some 9) 0 Option.none
      (Option.some "boom") (Option.some "boom")) 1 =
      Option.some "failure" :=
  ⟨rfl, update_execution_record_unconditional ledgerTerminal 1 "failure"
    (Option.some "t2") (Option.some 9) 0 Option.none
    (Option.some "boom") (Option.some "boom") "success" rfl⟩

/-- C8 counterexample: with malformed JSON in the backing file, both
boundary reads return normally with the same value an empty store
yields — exactly the "data as if the store were empty" the claim rules
out; no error of any kind is surfaced (the functions are total). -/
theorem malformed_store_read_as_empty :
    loadConnections (ConnReadOutcome.malformed "x]") =
      loadConnections ConnReadOutcome.missing ∧
    readJson (LedgerReadOutcome.malformed "x]") =
      readJson LedgerReadOutcome.missing :=
  ⟨rfl, rfl⟩

/-- C8 (amended): malformed JSON is swallowed at both read boundaries —
`_load_connections` returns the empty connection list and `_read_json`
returns the empty dict — and a subsequently created execution record
silently restarts id numbering at 1. -/
theorem malformed_store_swallowed (detail : String) :
    loadConnections (ConnReadOutcome.malformed detail) = [] ∧
    readJson (LedgerReadOutcome.malformed detail) =
      { executions := [], next_id := Option.none } ∧
    (createExecutionRecord (readJson (LedgerReadOutcome.malformed detail))
      Option.none "job" "src" "tgt" "local" "t").2 = 1 :=
  ⟨rfl, rfl, rfl⟩

/-- C10: `mark_connection_used` with an unknown connection id returns
normally and leaves the registry unchanged with no write; with a feature
tag already present it is a no-op with no write; hence a repeated call
with the same arguments equals a single call. -/
theorem mark_connection_used_noop_and_idempotent (reg : List Conn)
    (cid feature now now2 : String) :
    (lookupConn reg cid = Option.none →
      markConnectionUsed reg cid feature now = (reg, false)) ∧
    (∀ c, lookupConn reg cid = Option.some c → feature ∈ c.used_by →
      markConnectionUsed reg cid feature now = (reg, false)) ∧
    markConnectionUsed (markConnectionUsed reg cid feature now).1 cid
      feature now2 = ((markConnectionUsed reg cid feature now).1, false) := by
  refine ⟨?_, ?_, ?_⟩
  · intro h; simp [markConnectionUsed, h]
  · intro c hc hf; simp [markConnectionUsed, hc, hf]
  · cases hc : lookupConn reg cid with
    | none => simp [markConnectionUsed, hc]
    | some c =>
      by_cases hf : feature ∈ c.used_by
      · simp [markConnectionUsed, hc, hf]
      · have hlook := lookupConn_setFirstConn reg cid
          (fun x => { x with
            used_by := x.used_by ++ [feature]
            last_used := Option.some now }) c (fun x => rfl) hc
        simp [markConnectionUsed, hc, hf, hlook]

/-- Witness for C10 at concrete registries: an absent id and an
already-tagged feature. -/
theorem mark_connection_used_noop_and_idempotent_witness :
    markConnectionUsed
      [{ id := "a", used_by := ["fleet"], last_used := Option.none }] "b"
      "fleet" "t" =
      ([{ id := "a", used_by := ["fleet"], last_used := Option.none }],
        false) ∧
    markConnectionUsed
      [{ id := "a", used_by := ["fleet"], last_used := Option.none }] "a"
      "fleet" "t" =
      ([{ id := "a", used_by := ["fleet"], last_used := Option.none }],
        false) :=
  ⟨(mark_connection_used_noop_and_idempotent
      [{ id := "a", used_by := ["fleet"], last_used := Option.none }] "b"
      "fleet" "t" "t").1 rfl,
   (mark_connection_used_noop_and_idempotent
      [{ id := "a", used_by := ["fleet"], last_used := Option.none }] "a"
      "fleet" "t" "t").2.1
      { id := "a", used_by := ["fleet"], last_used := Option.none } rfl
      (by simp)⟩

/-- A concrete environment: two snapshots exist, the send process exits
1, the terminal (receive) process exits 0. -/
def envTwoSnaps : ReplEnv :=
  { snapshots := ["tank/data@s1", "tank/data@s2"]
    run := { send_rc := 1, term_rc := 0, term_err := "" }
    remote_host := Option.none
    force := false
    emailStatus := "sent" }

/-- C3: `execute_replication` is total past record creation — the
status field of the returned dict is "success" or "failure" (never anything else),
a notification send is always attempted, and the Execution record it
created is finalized to that same status (no record is left "running"),
for every environment and every well-formed ledger. -/
theorem execute_replication_boundary (source target : String)
    (rt : ReplicationType) (inc rec : Bool) (comp : CompressionMethod)
    (job_id job_name : Option String) (env : ReplEnv)
    (storage : LedgerData) (t0 t1 : String) (dur : Nat)
    (hwf : ∀ e ∈ storage.executions, e.id < storage.next_id.getD 1) :
    ∀ o, o = executeReplication source target rt inc rec comp job_id
      job_name env storage t0 t1 dur →
    (o.result.status = "success" ∨ o.result.status = "failure") ∧
    o.notified = true ∧
    statusOf o.ledger o.result.execution_id =
      Option.some o.result.status := by
  intro o ho
  subst ho
  have hfin := statusOf_finalize storage hwf job_id
    (job_name.getD (source ++ " → " ++ target)) source target rt.value t0
  cases hsnap : env.snapshots.getLast? with
  | none =>
    refine ⟨Or.inr ?_, ?_, ?_⟩ <;>
      simp only [executeReplication, hsnap] <;> try rfl
    exact hfin "failure" (Option.some t1) (Option.some dur) 0 Option.none
      (Option.some ("No snapshots found for " ++ source))
      (Option.some ("No snapshots found for " ++ source))
  | some latest =>
    cases rt <;> cases hrh : env.remote_host <;>
      by_cases hrc : env.run.term_rc = 0 <;>
        refine ⟨?_, ?_, ?_⟩ <;>
          simp [executeReplication, hsnap, hrh, hrc, Except.map,
            executeLocalReplication, executeRemoteReplication] <;>
          first
          | exact hfin "success" (Option.some t1) (Option.some dur) 0
              (Option.some latest) Option.none
              (Option.some env.run.term_err)
          | exact hfin "failure" (Option.some t1) (Option.some dur) 0
              Option.none
              (Option.some ("Receive failed: " ++ env.run.term_err))
              (Option.some ("Receive failed: " ++ env.run.term_err))
          | exact hfin "failure" (Option.some t1) (Option.some dur) 0
              Option.none
              (Option.some ("Remote receive failed: " ++ env.run.term_err))
              (Option.some ("Remote receive failed: " ++ env.run.term_err))
          | exact hfin "failure" (Option.some t1) (Option.some dur) 0
              Option.none
              (Option.some "remote_host required for remote replication")
              (Option.some "remote_host required for remote replication")

/-- Witness for C3 on a fresh ledger and a concrete environment. -/
theorem execute_replication_boundary_witness :
    statusOf (executeReplication "tank/data" "tank/backup"
        ReplicationType.LOCAL true false CompressionMethod.LZ4 Option.none
        Option.none envTwoSnaps freshLedger "t0" "t1" 5).ledger
      (executeReplication "tank/data" "tank/backup" ReplicationType.LOCAL
        true false CompressionMethod.LZ4 Option.none Option.none
        envTwoSnaps freshLedger "t0" "t1" 5).result.execution_id =
      Option.some (executeReplication "tank/data" "tank/backup"
        ReplicationType.LOCAL true false CompressionMethod.LZ4 Option.none
        Option.none envTwoSnaps freshLedger "t0" "t1" 5).result.status :=
  (execute_replication_boundary "tank/data" "tank/backup"
    ReplicationType.LOCAL true false CompressionMethod.LZ4 Option.none
    Option.none envTwoSnaps freshLedger "t0" "t1" 5
    (by simp [freshLedger]) _ rfl).2.2

/-- C7: a pipeline run is reported successful exactly when its terminal
leg — the local receive process, or the ssh remote-session process —
exits 0; the send exit status never enters the decision, so (witness) a
failed send with a zero-exiting receive is reported as a successful
replication. -/
theorem pipeline_success_iff_terminal_zero
    (send_cmd receive_cmd : List String) (run : PipelineRun)
    (rt : ReplicationType) (host source target : String)
    (inc rec : Bool) (comp : CompressionMethod)
    (job_id job_name : Option String) (env : ReplEnv)
    (storage : LedgerData) (t0 t1 : String) (dur : Nat) :
    ((executeLocalReplication send_cmd receive_cmd run).isOk = true ↔
      run.term_rc = 0) ∧
    ((executeRemoteReplication send_cmd receive_cmd rt (Option.some host)
        run).isOk = true ↔ run.term_rc = 0) ∧
    (∀ s, env.snapshots.getLast? = Option.some s →
      (executeReplication source target ReplicationType.LOCAL inc rec comp
          job_id job_name env storage t0 t1 dur).result.status =
        if env.run.term_rc = 0 then "success" else "failure") := by
  refine ⟨?_, ?_, ?_⟩
  · by_cases h : run.term_rc = 0 <;>
      simp [executeLocalReplication, h, Except.isOk, Except.toBool]
  · by_cases h : run.term_rc = 0 <;>
      simp [executeRemoteReplication, h, Except.isOk, Except.toBool]
  · intro s hs
    by_cases h : env.run.term_rc = 0 <;>
      simp [executeReplication, hs, h, executeLocalReplication, Except.map]

/-- Witness for C7: with `send_rc = 1` and `term_rc = 0` the local
pipeline run is reported OK and the whole replication reports
"success". -/
theorem pipeline_success_iff_terminal_zero_witness :
    (executeLocalReplication ["zfs", "send"] ["zfs", "receive"]
      { send_rc := 1, term_rc := 0, term_err := "" }).isOk = true ∧
    (executeReplication "tank/data" "tank/backup" ReplicationType.LOCAL
      true false CompressionMethod.LZ4 Option.none Option.none envTwoSnaps
      freshLedger "t0" "t1" 5).result.status = "success" := by
  constructor
  · exact (pipeline_success_iff_terminal_zero ["zfs", "send"]
      ["zfs", "receive"] { send_rc := 1, term_rc := 0, term_err := "" }
      ReplicationType.PUSH "h" "a" "b" false false CompressionMethod.NONE
      Option.none Option.none envTwoSnaps freshLedger "t0" "t1" 0).1.mpr
      rfl
  · have h := (pipeline_success_iff_terminal_zero [] []
      { send_rc := 0, term_rc := 0, term_err := "" } ReplicationType.PUSH
      "h" "tank/data" "tank/backup" true false CompressionMethod.LZ4
      Option.none Option.none envTwoSnaps freshLedger "t0" "t1"
      5).2.2 "tank/data@s2" rfl
    simpa [envTwoSnaps] using h

/-- C1: the `incremental` flag never reaches the built send command —
`_build_send_command` produces the same command for `incremental=True`
as for `incremental=False` — and concretely, with snapshots
`tank/data@s1`, `tank/data@s2` and `incremental=True`, the latest
snapshot `tank/data@s2` is the transfer point but the command spawned is
`zfs send -c -w tank/data@s2`, containing neither `-i` nor the
second-most-recent snapshot `tank/data@s1` as incremental base. -/
theorem send_command_ignores_incremental :
    (∀ (dataset snapshot : String) (rec : Bool) (comp : CompressionMethod),
      buildSendCommand dataset snapshot true rec comp =
        buildSendCommand dataset snapshot false rec comp) ∧
    (executeReplication "tank/data" "tank/backup" ReplicationType.LOCAL
      true false CompressionMethod.LZ4 Option.none Option.none envTwoSnaps
      freshLedger "t0" "t1" 5).send_cmd =
      Option.some ["zfs", "send", "-c", "-w", "tank/data@s2"] ∧
    (executeReplication "tank/data" "tank/backup" ReplicationType.LOCAL
      true false CompressionMethod.LZ4 Option.none Option.none envTwoSnaps
      freshLedger "t0" "t1" 5).result.snapshot =
      Option.some "tank/data@s2" ∧
    "-i" ∉ ["zfs", "send", "-c", "-w", "tank/data@s2"] ∧
    "tank/data@s1" ∉ ["zfs", "send", "-c", "-w", "tank/data@s2"] := by
  refine ⟨fun d s r c => rfl, rfl, rfl, by decide, by decide⟩

/-- C4 counterexample: neither persistence routine satisfies the
temporary-file-plus-fsync-plus-rename discipline the claim states —
`_save_connections` performs no rename at all (it rewrites the target in
place), and `_write_json` performs no fsync before its rename. -/
theorem store_writes_not_atomic_durable_replace :
    (¬ ∃ tmp, isAtomicDurableReplace
      (saveConnectionsOps "ssh_connections.json" "payload")
      "ssh_connections.json" tmp) ∧
    (¬ ∃ tmp, isAtomicDurableReplace
      (writeJsonOps "replication_history.json" "payload")
      "replication_history.json" tmp) := by
  constructor
  · rintro ⟨tmp, -, -, -, hmem, -⟩
    simp [saveConnectionsOps] at hmem
  · rintro ⟨tmp, -, -, -, -, i, j, hij, hi, hj⟩
    rcases i with _ | _ | _ | i <;>
      simp [writeJsonOps, withSuffix, List.get?] at hi

/-- C4 (amended): the two write routines follow different disciplines —
the execution-ledger write (`_write_json`) is a whole-file replace via
the `.tmp` sibling and a rename, never touching the target in place, but
contains no flush, no fsync and no chmod; the connection-store write
(`_save_connections`) opens and rewrites the target in place with no
temporary file and no rename, but does flush, fsync and chmod the file
to owner-only. -/
theorem store_write_disciplines (f d : String) :
    (FsOp.rename (withSuffix f ".tmp") f ∈ writeJsonOps f d) ∧
    (∀ p, FsOp.openTrunc p ∈ writeJsonOps f d → p = withSuffix f ".tmp") ∧
    (∀ p q, FsOp.writeAll p q ∈ writeJsonOps f d →
      p = withSuffix f ".tmp") ∧
    (∀ p, FsOp.flush p ∉ writeJsonOps f d) ∧
    (∀ p, FsOp.fsync p ∉ writeJsonOps f d) ∧
    (∀ p, FsOp.chmod600 p ∉ writeJsonOps f d) ∧
    (FsOp.openTrunc f ∈ saveConnectionsOps f d) ∧
    (FsOp.writeAll f d ∈ saveConnectionsOps f d) ∧
    (FsOp.flush f ∈ saveConnectionsOps f d) ∧
    (FsOp.fsync f ∈ saveConnectionsOps f d) ∧
    (FsOp.chmod600 f ∈ saveConnectionsOps f d) ∧
    (∀ a b, FsOp.rename a b ∉ saveConnectionsOps f d) := by
  refine ⟨?_, ?_, ?_, ?_, ?_, ?_, ?_, ?_, ?_, ?_, ?_, ?_⟩ <;>
    simp [writeJsonOps, saveConnectionsOps]

/-- A key file only the RSA parser accepts. -/
def rsaOnlyKey : KeyFile :=
  { parses := fun fm => decide (fm = KeyFormat.rsa) }

/-- C5 counterexample: a stored private key in the (supported) RSA
format makes the connection manager `_test_key_auth` fail outright —
only the ED25519 parser is ever tried there, no RSA/ECDSA/DSA fallback
and no `KeyFormatUnsupported` — even though the fleet-monitoring loader
accepts the very same key via its fallback chain. -/
theorem test_key_auth_no_rsa_fallback :
    rsaOnlyKey.parses KeyFormat.rsa = true ∧
    testKeyAuth rsaOnlyKey true "test" = false ∧
    fleetLoadPrivateKey rsaOnlyKey = Except.ok KeyFormat.rsa :=
  ⟨rfl, rfl, rfl⟩

/-- C5 (amended): the ED25519 → RSA → ECDSA → DSA first-success-wins
cascade exists only in the fleet monitoring `_create_ssh_client`, where it
fails exactly when all four parsers fail (surfacing the error of the
last parser, not a dedicated `KeyFormatUnsupported`); the connection manager
`_test_key_auth` loads the ED25519 format only, succeeding exactly when
the key parses as ED25519, the session connects, and the probe command
echoes back. -/
theorem key_loading_fallback (k : KeyFile) (connectOk : Bool)
    (echoOut : String) :
    (fleetLoadPrivateKey k).toOption =
      [KeyFormat.ed25519, KeyFormat.rsa, KeyFormat.ecdsa,
        KeyFormat.dsa].find? k.parses ∧
    ((fleetLoadPrivateKey k).isOk = true ↔
      (k.parses KeyFormat.ed25519 = true ∨ k.parses KeyFormat.rsa = true ∨
       k.parses KeyFormat.ecdsa = true ∨
       k.parses KeyFormat.dsa = true)) ∧
    testKeyAuth k connectOk echoOut =
      (k.parses KeyFormat.ed25519 && (connectOk && decide (echoOut = "test"))) := by
  refine ⟨?_, ?_, ?_⟩
  · by_cases h1 : k.parses KeyFormat.ed25519 = true <;>
      by_cases h2 : k.parses KeyFormat.rsa = true <;>
        by_cases h3 : k.parses KeyFormat.ecdsa = true <;>
          by_cases h4 : k.parses KeyFormat.dsa = true <;>
            simp [fleetLoadPrivateKey, List.find?, h1, h2, h3, h4,
              Except.toOption]
  · by_cases h1 : k.parses KeyFormat.ed25519 = true <;>
      by_cases h2 : k.parses KeyFormat.rsa = true <;>
        by_cases h3 : k.parses KeyFormat.ecdsa = true <;>
          by_cases h4 : k.parses KeyFormat.dsa = true <;>
            simp [fleetLoadPrivateKey, h1, h2, h3, h4, Except.isOk,
              Except.toBool]
  · cases hp : k.parses KeyFormat.ed25519 <;> cases connectOk <;>
      simp [testKeyAuth, hp]

/-- Witness for the amended C5 theorem at the RSA-only key. -/
theorem key_loading_fallback_witness :
    (fleetLoadPrivateKey rsaOnlyKey).isOk = true ∧
    testKeyAuth rsaOnlyKey true "test" =
      (rsaOnlyKey.parses KeyFormat.ed25519 &&
        (true && decide (("test" : String) = "test"))) :=
  ⟨(key_loading_fallback rsaOnlyKey true "test").2.1.mpr
      (Or.inr (Or.inl rfl)),
    (key_loading_fallback rsaOnlyKey true "test").2.2⟩

/-- C6 counterexample: a provisioning run in which key generation,
distribution and verification all succeed but the in-place persistence
write fails at the `os.fsync` step — the payload is already in the file,
so `create_connection` raises (and deletes the key files), yet the new
Connection is visible in the backing store, referencing deleted keys. -/
theorem provisioning_failure_leaves_connection_visible :
    (createConnection (StoreContent.valid []) true true true
      (SaveOutcome.failAt SaveStep.stepFsync) "c1").result.isOk = false ∧
    (createConnection (StoreContent.valid []) true true true
      (SaveOutcome.failAt SaveStep.stepFsync) "c1").keyFilesPresent =
      false ∧
    visibleConnections (createConnection (StoreContent.valid []) true true
      true (SaveOutcome.failAt SaveStep.stepFsync) "c1").store =
      [{ id := "c1", used_by := [], last_used := Option.none }] :=
  ⟨rfl, rfl, rfl⟩

/-- C6 (amended): on every failing provisioning run the generated key
files are deleted before the error propagates, and a failure at key
distribution or key-authentication verification leaves the backing store
untouched; but a persistence failure can strike after the in-place write
completed (fsync / chmod step), leaving the fully-written new Connection
visible in the backing store.  A successful run keeps the key files and
appends exactly the new Connection. -/
theorem provisioning_cleanup (old : StoreContent)
    (keygenOk copyOk authOk : Bool) (save : SaveOutcome) (cid : String) :
    ((createConnection old keygenOk copyOk authOk save cid).result.isOk =
        false →
      (createConnection old keygenOk copyOk authOk save
        cid).keyFilesPresent = false) ∧
    (keygenOk = false ∨ copyOk = false ∨ authOk = false →
      (createConnection old keygenOk copyOk authOk save cid).store =
        old) ∧
    ((createConnection old keygenOk copyOk authOk save cid).result.isOk =
        true →
      (createConnection old keygenOk copyOk authOk save
          cid).keyFilesPresent = true ∧
      visibleConnections
          (createConnection old keygenOk copyOk authOk save cid).store =
        visibleConnections old ++
          [{ id := cid, used_by := [], last_used := Option.none }]) := by
  rcases save with _ | s <;> cases keygenOk <;> cases copyOk <;>
    cases authOk <;>
      simp [createConnection, storeAfterSave, visibleConnections,
        Except.isOk, Except.toBool]

/-- Witness for the amended C6 theorem: a fully successful run and a run
failing at verification. -/
theorem provisioning_cleanup_witness :
    (visibleConnections (createConnection (StoreContent.valid []) true
        true true SaveOutcome.saveOk "c1").store =
      visibleConnections (StoreContent.valid []) ++
        [{ id := "c1", used_by := [], last_used := Option.none }]) ∧
    (createConnection (StoreContent.valid []) true true false
      SaveOutcome.saveOk "c1").store = StoreContent.valid [] :=
  ⟨((provisioning_cleanup (StoreContent.valid []) true true true
      SaveOutcome.saveOk "c1").2.2 rfl).2,
    (provisioning_cleanup (StoreContent.valid []) true true false
      SaveOutcome.saveOk "c1").2.1 (Or.inr (Or.inr rfl))⟩

end WebZFS
